import Mathlib

/-!
Verification development for the SMART-GRID backend orchestration layer.

The definitions below are a shallow embedding of the Python sources:

* app/backend/services/simulation_service.py  (real-time engine)
* app/backend/services/pipeline_service.py    (batch task orchestrator)
* app/backend/services/opendss_service.py     (grid-model adapter boundary)
* app/backend/api/websockets/handlers.py      (connection manager / duplex channel)

Conventions of the embedding:

* Python floats are modelled as rationals, so sums and products are exact.
* Python dicts keyed by name are modelled as association lists.
* Dates of the form YYYY-MM-DD are modelled by their ordinal day number
  (an integer); datetime subtraction and one-day increments become integer
  arithmetic, which is all the orchestrator uses dates for.
* The external power-flow solver is an opaque collaborator: its per-call
  outcomes (convergence, raised exceptions, extracted element data) enter the
  embedding as explicit parameters.
* Cooperative-concurrency interleavings are modelled at the suspension points
  the code actually has: the orchestrator observes outside mutations of a
  task record only at day boundaries, so a cancellation request is a flag on
  the date during whose execution it lands.
-/

namespace SmartGrid

/-- Summarized snapshot entry appended to the engine history by
SimulationService._add_to_history (simulation_service.py lines 385-399). -/
structure HistoryEntry where
  timestamp : ℚ
  totalPowerKw : ℚ
  totalLoadKw : ℚ
  totalGenerationKw : ℚ
  totalLossesKw : ℚ
  converged : Bool
  numViolations : Nat
deriving DecidableEq, Repr

/-- Default history capacity, from SimulationService.__init__:
self._max_history_length = 1000. -/
def maxHistoryLength : Nat := 1000

/-- SimulationService._add_to_history: append the summary, then pop the oldest
entry when the length exceeds the capacity (lines 396-399 of
simulation_service.py: history.append(summary); if len > max: pop(0)). -/
def addToHistory (maxLen : Nat) (history : List HistoryEntry) (e : HistoryEntry) :
    List HistoryEntry :=
  let h := history ++ [e]
  if maxLen < h.length then h.tail else h

/-- Result of a whole sequence of appends, starting from the empty history the
engine begins a run with. -/
def histRun (maxLen : Nat) (es : List HistoryEntry) : List HistoryEntry :=
  es.foldl (addToHistory maxLen) []

/-- SimulationService.get_history (line 443-445): returns history[-limit:].
Python slicing with a non-negative limit: [-0:] is [0:], the whole list, and
for positive limit it is the suffix of length min limit len. -/
def get_history (history : List HistoryEntry) (limit : Nat) : List HistoryEntry :=
  if limit = 0 then history else history.drop (history.length - limit)

/-- Success or failure dict returned by the engine control operations: the
Python methods return {"success": True, "message": m} or
{"success": False, "error": m}. -/
inductive OpResult where
  | ok (message : String)
  | err (message : String)
deriving DecidableEq, Repr

/-- Mutable state of SimulationService relevant to its control surface
(simulation_service.py __init__). -/
structure EngineState where
  running : Bool := false
  paused : Bool := false
  simulationSpeed : ℚ := 1
  currentHour : ℚ := 0
  history : List HistoryEntry := []
  mode : String := "synthetic"
deriving DecidableEq, Repr

/-- SimulationService.pause (lines 416-423): fails when not running, else sets
the paused flag. The check reads only the running flag. -/
def pause (e : EngineState) : OpResult × EngineState :=
  if e.running = false then (.err "Simulation not running", e)
  else (.ok "Simulation paused", { e with paused := true })

/-- SimulationService.resume (lines 425-432): fails when not running, else
clears the paused flag. The check reads only the running flag. -/
def resume (e : EngineState) : OpResult × EngineState :=
  if e.running = false then (.err "Simulation not running", e)
  else (.ok "Simulation resumed", { e with paused := false })

/-- SimulationService.set_speed (lines 434-441). -/
def set_speed (e : EngineState) (speed : ℚ) : OpResult × EngineState :=
  if speed ≤ 0 then (.err "Speed must be positive", e)
  else (.ok "speed set", { e with simulationSpeed := speed })

/-- SimulationService.start (lines 147-190). The method first ensures the
grid model is loaded (load_model is the external adapter call, whose success
is the parameter loadOk), then rejects when already running, otherwise resets
the clock, clears the history and launches the stepping loop. It reads no
state of the batch orchestrator. Returns (result, model-loaded flag after the
call, engine state after the call). -/
def engineStart (loadOk : Bool) (dssModelLoaded : Bool) (e : EngineState)
    (speed : ℚ) (mode : String) : OpResult × Bool × EngineState :=
  if dssModelLoaded = false ∧ loadOk = false then
    (.err "Failed to load model", dssModelLoaded, e)
  else if e.running then
    (.err "Simulation already running", true, e)
  else
    (.ok "Simulation started", true,
      { e with running := true, paused := false, simulationSpeed := speed,
               currentHour := 0, mode := mode, history := [] })

/-- Per-day result record kept in SimulationTask.completed_days. A successful
day is the summary built by _summarize_day (whose numeric statistics depend
only on the external solver and are abstracted into the record identity);
a failed day is the record built at pipeline_service.py lines 368-372:
status "error" plus the exception text. -/
structure DayResult where
  date : Int
  status : String
  message : Option String := none
deriving DecidableEq, Repr

/-- Batch task record, the SimulationTask dataclass of pipeline_service.py
(lines 36-48). Dates are day ordinals. -/
structure SimulationTask where
  taskId : String
  status : String := "pending"
  mode : String := "single"
  startDate : Int := 0
  endDate : Int := 0
  totalDays : Int := 0
  currentDay : Nat := 0
  currentDate : Int := 0
  completedDays : List DayResult := []
  error : Option String := none
deriving DecidableEq, Repr

/-- Mutable state of PipelineService (pipeline_service.py __init__): the task
dict and the single busy marker self._running_task_id. -/
structure PipelineState where
  tasks : List (String × SimulationTask) := []
  runningTaskId : Option String := none
deriving DecidableEq, Repr

/-- PipelineService.is_busy (lines 61-63): the orchestrator is busy exactly
when a running task id is recorded. -/
def is_busy (p : PipelineState) : Bool := p.runningTaskId.isSome

/-- Lookup in the task dict, self._tasks.get(task_id). -/
def lookupTask (tasks : List (String × SimulationTask)) (tid : String) :
    Option SimulationTask :=
  match tasks with
  | [] => none
  | (k, t) :: rest => if k = tid then some t else lookupTask rest tid

/-- In-place mutation of a task record inside the dict. -/
def updateTask (tasks : List (String × SimulationTask)) (tid : String)
    (t : SimulationTask) : List (String × SimulationTask) :=
  tasks.map (fun kv => if kv.1 = tid then (kv.1, t) else kv)

/-- Task record created by PipelineService.start_simulation (lines 289-302):
mode is "range" exactly when an end date is given and differs from the start
date; total_days = (d_end - d_start).days + 1. -/
def mkSimulationTask (newId : String) (startDate : Int) (endDate : Option Int) :
    SimulationTask :=
  let isRange : Bool := match endDate with
    | none => false
    | some e => decide (e ≠ startDate)
  let eDate := endDate.getD startDate
  { taskId := newId
    status := "pending"
    mode := if isRange then "range" else "single"
    startDate := startDate
    endDate := eDate
    totalDays := eDate - startDate + 1 }

/-- PipelineService.start_simulation (lines 269-310): rejects when the
orchestrator itself is busy (it reads no state of the real-time engine),
otherwise records the new pending task, marks itself busy and launches the
background execution, returning the task id at once. -/
def start_simulation (p : PipelineState) (newId : String) (startDate : Int)
    (endDate : Option Int) : Except String (String × PipelineState) :=
  if is_busy p then .error "A simulation is already running"
  else
    .ok (newId,
      { tasks := (newId, mkSimulationTask newId startDate endDate) :: p.tasks,
        runningTaskId := some newId })

/-- PipelineService.cancel_task (lines 468-475): effective only on a task
whose status is "running"; marks it "cancelled" and clears the busy marker
immediately, without waiting for the background execution to stop. -/
def cancel_task (p : PipelineState) (tid : String) : Bool × PipelineState :=
  match lookupTask p.tasks tid with
  | some t =>
    if t.status = "running" then
      (true,
        { tasks := updateTask p.tasks tid { t with status := "cancelled" },
          runningTaskId := none })
    else (false, p)
  | none => (false, p)

/-- Outcome of the CPU-bound work of one day (_prepare_date followed by
_run_simulation and _summarize_day, run in the executor): either the day
summary, or a raised exception with its message. An adapter compile failure
raises RuntimeError("DSS compile error: ...") from _run_simulation
(pipeline_service.py lines 118-120) and reaches the caller as an ordinary
exception. -/
inductive DayOutcome where
  | ok (summary : DayResult)
  | exc (message : String)

/-- PipelineService._run_one_day (lines 353-372): awaits the day work and
returns its summary; any exception, the adapter compile failure included, is
caught and turned into a per-day error record carrying the message. -/
def run_one_day (date : Int) (outcome : DayOutcome) : DayResult :=
  match outcome with
  | .ok summary => summary
  | .exc msg => { date := date, status := "error", message := some msg }

/-- Inclusive list of day ordinals walked by the while-loop of _run_task
(current = d_start; while current <= d_end: ...; current += 1 day). -/
def dateRange (dStart dEnd : Int) : List Int :=
  (List.range (dEnd + 1 - dStart).toNat).map (fun i => dStart + i)

/-- Loop body of PipelineService._run_task (lines 312-351) over the remaining
dates. At the top of each iteration the task status is checked: "cancelled"
breaks out of the loop. Otherwise the day counter and current date are
updated, the day executes, its result is appended. cancelDuring d = true
means cancel_task was called (and, the status being "running", succeeded)
while day d was in flight or during the inter-day sleep; the flag it sets is
observed at the next top-of-loop check. After the loop — by normal exhaustion
or by the cancellation break alike — line 343 runs: task.status = "completed".
-/
def runTaskLoop (outcomes : Int → DayOutcome) (cancelDuring : Int → Bool) :
    List Int → Nat → SimulationTask → SimulationTask
  | [], _dayNum, t => { t with status := "completed" }
  | date :: rest, dayNum, t =>
    if t.status = "cancelled" then { t with status := "completed" }
    else
      let dayNum2 := dayNum + 1
      let t2 := { t with currentDay := dayNum2, currentDate := date }
      let dayResult := run_one_day date (outcomes date)
      let t3 := { t2 with completedDays := t2.completedDays ++ [dayResult] }
      let t4 := if cancelDuring date ∧ t3.status = "running" then
          { t3 with status := "cancelled" }
        else t3
      runTaskLoop outcomes cancelDuring rest dayNum2 t4

/-- PipelineService._run_task (lines 312-351): sets the status to "running"
and walks the inclusive date range day by day. run_one_day never raises (it
catches everything), so with pre-parsed dates the outer except branch that
would set status "error" is unreachable; the final status comes from line 343.
-/
def run_task (outcomes : Int → DayOutcome) (cancelDuring : Int → Bool)
    (t : SimulationTask) : SimulationTask :=
  runTaskLoop outcomes cancelDuring (dateRange t.startDate t.endDate) 0
    { t with status := "running" }

/-- Combined state of the two services and the shared adapter, as they exist
as module-level singletons. SimulationService never imports or reads
pipeline_service, and PipelineService never reads the engine flags; the
combined operations below make that explicit. -/
structure SystemState where
  dssModelLoaded : Bool
  engine : EngineState
  pipeline : PipelineState
deriving DecidableEq, Repr

/-- SimulationService.start at system level: acts on the adapter flag and the
engine state only; the orchestrator state is neither read nor written. -/
def systemEngineStart (loadOk : Bool) (s : SystemState) (speed : ℚ)
    (mode : String) : OpResult × SystemState :=
  let r := engineStart loadOk s.dssModelLoaded s.engine speed mode
  (r.1, { s with dssModelLoaded := r.2.1, engine := r.2.2 })

/-- PipelineService.start_simulation at system level: acts on the orchestrator
state only; the engine flags are neither read nor written. -/
def systemStartSimulation (s : SystemState) (newId : String) (startDate : Int)
    (endDate : Option Int) : Except String (String × SystemState) :=
  match start_simulation s.pipeline newId startDate endDate with
  | .error e => .error e
  | .ok (tid, p2) => .ok (tid, { s with pipeline := p2 })

/-- Load entry of a snapshot, the LoadData dataclass of opendss_service.py
restricted to the fields the aggregate-consistency property concerns. -/
structure LoadEntry where
  name : String
  kw : ℚ
deriving DecidableEq, Repr

/-- OpenDSSService._get_all_loads (lines 410-439): each extracted entry
carries kw = dss.Loads.kW() * self._current_load_mult, the nominal kW of the
load already scaled by the tracked multiplier. The nominal values come from
the external model and are a parameter. -/
def getAllLoads (nominal : List LoadEntry) (currentLoadMult : ℚ) :
    List LoadEntry :=
  nominal.map (fun l => { l with kw := l.kw * currentLoadMult })

/-- Aggregate total computed by OpenDSSService.get_grid_state (lines 290-292):
nominal_load = sum of the kw fields of the extracted entries, and
total_load_kw = nominal_load * self._current_load_mult — the multiplier is
applied a second time on top of the per-entry scaling of _get_all_loads. -/
def gridStateTotalLoad (nominal : List LoadEntry) (currentLoadMult : ℚ) : ℚ :=
  (((getAllLoads nominal currentLoadMult).map LoadEntry.kw).sum) * currentLoadMult

/-- Aggregate total computed by OpenDSSService.read_current_state (line 569),
by the real-data stepping loop of SimulationService (line 293) and by
run_daily_simulation (line 841): the plain sum of the kw fields of the
extracted entries. -/
def readStateTotalLoad (nominal : List LoadEntry) (currentLoadMult : ℚ) : ℚ :=
  ((getAllLoads nominal currentLoadMult).map LoadEntry.kw).sum

/-- Observer handle: a live connection together with the behavior of its
socket (whether websocket.send_json succeeds for it). -/
structure Conn where
  id : Nat
  sendOk : Bool
deriving DecidableEq, Repr

/-- Delivery callback installed by ConnectionManager._create_broadcast_callback
(handlers.py lines 52-65): it wraps websocket.send_json in try/except and only
logs on failure, so it never raises to its caller, whatever the socket does. -/
def wsCallbackRaises (_sendOk : Bool) : Bool := false

/-- SimulationService._broadcast_state (lines 62-74): iterates a copy of the
subscriber set and discards every subscriber whose callback raises; the
resulting subscriber set is the input with the raising subscribers removed. -/
def broadcastStateGeneral (raises : Conn → Bool) (subs : List Conn) :
    List Conn :=
  subs.filter (fun c => !(raises c))

/-- SimulationService._broadcast_state when the subscribers are the callbacks
installed by the connection manager: since those callbacks swallow their send
failures, no subscriber is ever discarded. -/
def broadcastState (subs : List Conn) : List Conn :=
  broadcastStateGeneral (fun c => wsCallbackRaises c.sendOk) subs

/-- ConnectionManager.broadcast (handlers.py lines 67-83): every connection in
the snapshot taken at the start gets one send attempt, in order, whatever
happened to the connections before it. -/
def hubBroadcastAttempts (conns : List Conn) : List Nat :=
  conns.map Conn.id

/-- Active connections left after ConnectionManager.broadcast: failures are
collected into a disconnected set during the iteration and removed from the
active set only after the iteration completes. -/
def hubBroadcast (conns : List Conn) : List Conn :=
  conns.filter (fun c => c.sendOk)

/-- Client message actions dispatched by handle_client_message
(handlers.py lines 172-290). -/
def knownActions : List String :=
  ["ping", "start", "stop", "pause", "resume", "step", "set_speed",
   "get_state", "get_status", "get_history"]

/-- Shape of a server reply on the duplex channel; the payloads of the known
actions are elided, the error message text is kept. -/
inductive Reply where
  | pong
  | response (action : String)
  | stateOrInfo
  | statusReply
  | historyReply
  | errorReply (message : String)
deriving DecidableEq, Repr

/-- Lowercasing of the received action string, data.get("action", "").lower()
of handle_client_message, character by character (action strings are ASCII).
-/
def strLower (s : String) : String := String.mk (s.data.map Char.toLower)

/-- Dispatch skeleton of handle_client_message (handlers.py lines 172-290):
the action string is lowercased (data.get("action", "").lower()), compared
against the known actions in order, and an unknown action falls through to
the error reply naming it (line 280-283). -/
def handle_client_message (action : String) : Reply :=
  let a := strLower action
  if a = "ping" then .pong
  else if a = "start" then .response "start"
  else if a = "stop" then .response "stop"
  else if a = "pause" then .response "pause"
  else if a = "resume" then .response "resume"
  else if a = "step" then .response "step"
  else if a = "set_speed" then .response "set_speed"
  else if a = "get_state" then .stateOrInfo
  else if a = "get_status" then .statusReply
  else if a = "get_history" then .historyReply
  else .errorReply ("Unknown action: " ++ a)

/-- One received client message: either JSON with an action field, or a
malformed payload that raises json.JSONDecodeError. -/
inductive ClientMsg where
  | malformed
  | action (a : String)

/-- One iteration of the receive loop of websocket_endpoint (handlers.py
lines 145-153): a malformed message is answered with the parse-error event and
the loop continues; a well-formed message goes to handle_client_message, whose
own try/except turns any failure into an error event. Returns the reply and
whether the connection remains registered (deregistration happens only on
WebSocketDisconnect, outside this loop body). -/
def endpointStep (m : ClientMsg) : Reply × Bool :=
  match m with
  | .malformed => (.errorReply "Invalid JSON message", true)
  | .action a => (handle_client_message a, true)

/-! Fixtures and helper lemmas shared by the theorems below. -/

/-- Concrete history entry used by witnesses. -/
def heAt (t : ℚ) : HistoryEntry :=
  { timestamp := t, totalPowerKw := 0, totalLoadKw := 0, totalGenerationKw := 0,
    totalLossesKw := 0, converged := true, numViolations := 0 }

/-- Day outcome in which the external work of day d succeeds. -/
def okDay (d : Int) : DayOutcome := .ok { date := d, status := "success" }

/-- Engine state that is running and not paused. -/
def engineRunningUnpaused : EngineState := { running := true, paused := false }

/-- Batch task in the running state, as left by start_simulation plus the
first statement of _run_task. -/
def runningBatchTask : SimulationTask :=
  { mkSimulationTask "abc12345" 100 (some 102) with status := "running" }

/-- Pipeline state busy with the running batch task. -/
def runningPipeline : PipelineState :=
  { tasks := [("abc12345", runningBatchTask)], runningTaskId := some "abc12345" }

/-- Combined state in which the orchestrator is busy, the engine idle and the
grid model loaded. -/
def busySystem : SystemState :=
  { dssModelLoaded := true, engine := {}, pipeline := runningPipeline }

/-- Combined state with both services idle and the model loaded. -/
def idleSystem : SystemState :=
  { dssModelLoaded := true, engine := {}, pipeline := {} }

/-- Two-day batch task: days 100 and 101, all external day work succeeding,
with a successful cancel_task call landing while day 100 is in flight. -/
def cancelledTwoDayRun : SimulationTask :=
  run_task okDay (fun d => decide (d = 100)) (mkSimulationTask "task0001" 100 (some 101))

/-- Three-day batch task in which the adapter compile fails on the middle
day (the RuntimeError raised by _run_simulation lines 118-120) and the other
days succeed, with no cancellation. -/
def compileFailRun : SimulationTask :=
  run_task
    (fun d => if d = 101 then
        DayOutcome.exc "DSS compile error: redirect file not found"
      else okDay d)
    (fun _ => false)
    (mkSimulationTask "task0002" 100 (some 102))

/-- Single load of nominal 100 kW, as the external model reports it. -/
def oneLoad : List LoadEntry := [{ name := "load1", kw := 100 }]

/-- Observer whose socket send always fails. -/
def failingObserver : Conn := { id := 1, sendOk := false }

/-- Folding appends over a history no longer than the capacity keeps exactly
the most recent cap entries of the concatenation. -/
theorem histFold_eq_drop (cap : Nat) (es : List HistoryEntry) :
    ∀ h : List HistoryEntry, h.length ≤ cap →
      es.foldl (addToHistory cap) h =
        (h ++ es).drop (h.length + es.length - cap) := by
  induction es with
  | nil =>
    intro h hle
    simp [Nat.sub_eq_zero_of_le hle]
  | cons e rest ih =>
    intro h hle
    rw [List.foldl_cons]
    have happ : (h ++ [e]) ++ rest = h ++ e :: rest := by
      rw [List.append_assoc, List.singleton_append]
    rcases Nat.lt_or_ge h.length cap with hlt | hge
    · have hkeep : addToHistory cap h e = h ++ [e] := by
        unfold addToHistory
        rw [if_neg (by simp; omega)]
      rw [hkeep, ih (h ++ [e]) (by simp; omega), happ]
      have hidx : (h ++ [e]).length + rest.length - cap =
          h.length + (e :: rest).length - cap := by
        simp only [List.length_append, List.length_singleton, List.length_cons, List.length_nil]
        omega
      rw [hidx]
    · have heq : h.length = cap := Nat.le_antisymm hle hge
      have hdropit : addToHistory cap h e = (h ++ [e]).drop 1 := by
        unfold addToHistory
        rw [if_pos (by simp; omega), List.drop_one]
      have hlen1 : ((h ++ [e]).drop 1).length = cap := by
        simp only [List.length_drop, List.length_append, List.length_singleton, List.length_nil, List.length_cons]
        omega
      rw [hdropit, ih ((h ++ [e]).drop 1) (le_of_eq hlen1), hlen1]
      have hidx : cap + rest.length - cap = rest.length := by omega
      rw [hidx]
      have hone : (1 : Nat) ≤ (h ++ [e]).length := by
        simp only [List.length_append, List.length_singleton, List.length_nil, List.length_cons]
        omega
      rw [← List.drop_append_of_le_length hone, List.drop_drop, happ]
      have hidx2 : 1 + rest.length = h.length + (e :: rest).length - cap := by
        simp only [List.length_cons, List.length_nil]
        omega
      rw [hidx2]

/-- Starting from the empty history, a run of appends keeps the most recent
cap entries. -/
theorem histRun_eq_drop (cap : Nat) (es : List HistoryEntry) :
    histRun cap es = es.drop (es.length - cap) := by
  have := histFold_eq_drop cap es [] (by simp)
  simpa [histRun] using this

/-- C5 (confirmed): for every sequence of appends the history length never
exceeds the capacity, and after capacity + 1 appends the oldest entry has
been evicted while the newest and the append order are kept: the log is
exactly the tail of the appended sequence. -/
theorem history_capacity_fifo (cap : Nat) (es : List HistoryEntry) :
    (histRun cap es).length ≤ cap ∧
    (es.length = cap + 1 → histRun cap es = es.tail) := by
  constructor
  · rw [histRun_eq_drop, List.length_drop]
    omega
  · intro hlen
    rw [histRun_eq_drop, hlen]
    have h1 : cap + 1 - cap = 1 := by omega
    rw [h1, List.drop_one]

/-- Witness for C5 at capacity 2 and three appended entries. -/
theorem history_capacity_fifo_witness :
    (histRun 2 [heAt 1, heAt 2, heAt 3]).length ≤ 2 ∧
    histRun 2 [heAt 1, heAt 2, heAt 3] = [heAt 1, heAt 2, heAt 3].tail :=
  ⟨(history_capacity_fifo 2 [heAt 1, heAt 2, heAt 3]).1,
   (history_capacity_fifo 2 [heAt 1, heAt 2, heAt 3]).2 rfl⟩

/-- C7 (corrected) counterexample: on a one-entry history, getHistory 0
returns the whole history, not zero entries: Python history[-0:] is
history[0:]. -/
theorem get_history_zero_counterexample :
    get_history [heAt 1] 0 = [heAt 1] ∧ (get_history [heAt 1] 0).length ≠ 0 :=
  ⟨rfl, by decide⟩

/-- C7 (corrected), amended: for every positive limit, getHistory returns the
most recent limit entries of the history in order (a suffix of length
min limit len), and getHistory 0 returns the entire history. -/
theorem get_history_characterization (h : List HistoryEntry) (limit : Nat) :
    (0 < limit →
      (get_history h limit).length = min limit h.length ∧
      get_history h limit <:+ h) ∧
    get_history h 0 = h := by
  constructor
  · intro hpos
    unfold get_history
    rw [if_neg (by omega)]
    refine ⟨?_, List.drop_suffix _ _⟩
    rw [List.length_drop]
    omega
  · simp [get_history]

/-- Witness for C7 on a three-entry history with limit 2 and limit 0. -/
theorem get_history_characterization_witness :
    ((get_history [heAt 1, heAt 2, heAt 3] 2).length =
        min 2 [heAt 1, heAt 2, heAt 3].length ∧
      get_history [heAt 1, heAt 2, heAt 3] 2 <:+ [heAt 1, heAt 2, heAt 3]) ∧
    get_history [heAt 1, heAt 2, heAt 3] 0 = [heAt 1, heAt 2, heAt 3] :=
  ⟨(get_history_characterization [heAt 1, heAt 2, heAt 3] 2).1 (by omega),
   (get_history_characterization [heAt 1, heAt 2, heAt 3] 0).2⟩

/-- C6 (corrected) counterexample: resume called while the engine is Running
and not paused succeeds, whereas the claim requires a NotRunning failure
outside the Paused state: the code gates resume (and pause) on the running
flag alone. -/
theorem resume_from_running_unpaused_succeeds :
    engineRunningUnpaused.running = true ∧
    engineRunningUnpaused.paused = false ∧
    (resume engineRunningUnpaused).1 = OpResult.ok "Simulation resumed" :=
  ⟨rfl, rfl, rfl⟩

/-- C6 (corrected), amended: resume succeeds whenever the engine is running,
paused or not, clearing the paused flag; called while not running it fails
with the NotRunning message and leaves the state unchanged; pause behaves
symmetrically, succeeding from any running state. -/
theorem pause_resume_running_gate (e : EngineState) :
    (e.running = false →
      resume e = (.err "Simulation not running", e) ∧
      pause e = (.err "Simulation not running", e)) ∧
    (e.running = true →
      resume e = (.ok "Simulation resumed", { e with paused := false }) ∧
      pause e = (.ok "Simulation paused", { e with paused := true })) := by
  constructor
  · intro h
    constructor <;> simp [resume, pause, h]
  · intro h
    constructor <;> simp [resume, pause, h]

/-- Witness for C6 on the running, unpaused engine state. -/
theorem pause_resume_running_gate_witness :
    resume engineRunningUnpaused =
      (.ok "Simulation resumed", { engineRunningUnpaused with paused := false }) ∧
    pause engineRunningUnpaused =
      (.ok "Simulation paused", { engineRunningUnpaused with paused := true }) :=
  (pause_resume_running_gate engineRunningUnpaused).2 rfl

/-- C1 (corrected) counterexample: in a reachable state where the
orchestrator is busy with a batch task and the engine is idle, starting the
engine succeeds — it does not fail fast with a Conflict-style failure,
because SimulationService.start never reads the orchestrator state. -/
theorem engine_start_ignores_busy_orchestrator :
    is_busy busySystem.pipeline = true ∧
    busySystem.engine.running = false ∧
    (systemEngineStart true busySystem 1 "synthetic").1 =
      OpResult.ok "Simulation started" :=
  ⟨rfl, rfl, rfl⟩

/-- C1 (corrected), amended: each service fails fast only against itself.
With the model loaded, engine start fails with AlreadyRunning exactly when
the engine itself is running — whatever the orchestrator is doing, and
without touching the orchestrator state — and batch start fails with the
busy Conflict exactly when the orchestrator itself is busy, whatever the
engine is doing; no cross-service mutual exclusion is enforced. -/
theorem each_service_guards_only_itself (s : SystemState) (speed : ℚ)
    (mode newId : String) (d : Int) (oe : Option Int)
    (hm : s.dssModelLoaded = true) :
    (s.engine.running = false →
      (systemEngineStart true s speed mode).1 = .ok "Simulation started" ∧
      (systemEngineStart true s speed mode).2.pipeline = s.pipeline) ∧
    (s.engine.running = true →
      (systemEngineStart true s speed mode).1 =
        .err "Simulation already running") ∧
    (is_busy s.pipeline = false →
      systemStartSimulation s newId d oe =
        .ok (newId, { s with pipeline :=
          { tasks := (newId, mkSimulationTask newId d oe) :: s.pipeline.tasks,
            runningTaskId := some newId } })) ∧
    (is_busy s.pipeline = true →
      systemStartSimulation s newId d oe =
        .error "A simulation is already running") := by
  refine ⟨fun h => ?_, fun h => ?_, fun h => ?_, fun h => ?_⟩
  · simp [systemEngineStart, engineStart, hm, h]
  · simp [systemEngineStart, engineStart, hm, h]
  · simp [systemStartSimulation, start_simulation, h]
  · simp [systemStartSimulation, start_simulation, h]

/-- Witness for the amended C1 in the idle system state. -/
theorem each_service_guards_only_itself_witness :
    (systemEngineStart true idleSystem 1 "synthetic").1 =
      .ok "Simulation started" ∧
    systemStartSimulation idleSystem "tid00001" 5 none =
      .ok ("tid00001", { idleSystem with pipeline :=
        { tasks := [("tid00001", mkSimulationTask "tid00001" 5 none)],
          runningTaskId := some "tid00001" } }) :=
  ⟨((each_service_guards_only_itself idleSystem 1 "synthetic" "tid00001" 5 none
      rfl).1 rfl).1,
   (each_service_guards_only_itself idleSystem 1 "synthetic" "tid00001" 5 none
      rfl).2.2.1 rfl⟩

/-- C2 (code_bug): the failing execution. A cancel succeeds while the task is
running day 100 of a two-day range; the background loop observes the
cancellation at the next day boundary and stops, keeping exactly the one day
completed before the cancellation — but then line 343 of pipeline_service.py
runs unconditionally after the loop, so the final status is "completed", not
"cancelled": the cancelled status is not terminal as the state machine of the
spec requires. -/
theorem cancelled_task_ends_completed :
    cancelledTwoDayRun.status = "completed" ∧
    cancelledTwoDayRun.status ≠ "cancelled" ∧
    cancelledTwoDayRun.completedDays =
      [{ date := 100, status := "success", message := none }] :=
  ⟨rfl, by decide, rfl⟩

/-- C3 (corrected) counterexample: an adapter compile failure on day 2 of a
3-day task does not abort the remaining days and does not mark the task
"error": _run_one_day catches every exception of the day work, the compile
RuntimeError included, turning it into a per-day error record; day 3 still
runs and the task finishes "completed". -/
theorem compile_failure_does_not_abort :
    compileFailRun.completedDays.map DayResult.status =
      ["success", "error", "success"] ∧
    compileFailRun.completedDays.length = 3 ∧
    compileFailRun.status = "completed" ∧
    compileFailRun.status ≠ "error" :=
  ⟨rfl, rfl, rfl, by decide⟩

/-- With no cancellation, the task loop visits every remaining date in order,
appending one result per date, and ends "completed". -/
theorem runTaskLoop_no_cancel (outcomes : Int → DayOutcome) :
    ∀ (dates : List Int) (dayNum : Nat) (t : SimulationTask),
      t.status = "running" →
      (runTaskLoop outcomes (fun _ => false) dates dayNum t).status =
        "completed" ∧
      (runTaskLoop outcomes (fun _ => false) dates dayNum t).completedDays =
        t.completedDays ++ dates.map (fun d => run_one_day d (outcomes d)) := by
  intro dates
  induction dates with
  | nil =>
    intro dayNum t ht
    simp [runTaskLoop]
  | cons date rest ih =>
    intro dayNum t ht
    rw [runTaskLoop]
    rw [if_neg (by rw [ht]; decide)]
    simp only
    rw [if_neg (by simp)]
    have := ih (dayNum + 1)
      { t with currentDay := dayNum + 1, currentDate := date,
               completedDays :=
                 t.completedDays ++ [run_one_day date (outcomes date)] }
      (by simpa using ht)
    refine ⟨this.1, ?_⟩
    rw [this.2]
    simp [List.append_assoc]

/-- C3 (corrected), amended: every exception during the work of one day —
the adapter compile failure included — is caught by _run_one_day and becomes
that day's error record; the remaining days of the range still run, one
record per day in date order, and the task's final status is "completed".
(The task-level "error" status is reached only by exceptions raised outside
the per-day path, such as malformed dates in _run_task itself.) -/
theorem every_day_exception_stays_per_day (outcomes : Int → DayOutcome)
    (tid : String) (s : Int) (oe : Option Int) :
    (run_task outcomes (fun _ => false) (mkSimulationTask tid s oe)).status =
      "completed" ∧
    (run_task outcomes (fun _ => false)
        (mkSimulationTask tid s oe)).completedDays =
      (dateRange s (oe.getD s)).map (fun d => run_one_day d (outcomes d)) := by
  have h := runTaskLoop_no_cancel outcomes
    (dateRange (mkSimulationTask tid s oe).startDate
      (mkSimulationTask tid s oe).endDate) 0
    { mkSimulationTask tid s oe with status := "running" } rfl
  have hs : (mkSimulationTask tid s oe).startDate = s := rfl
  have he : (mkSimulationTask tid s oe).endDate = oe.getD s := rfl
  refine ⟨?_, ?_⟩
  · rw [run_task]
    exact h.1
  · rw [run_task]
    rw [h.2]
    simp [hs, he, mkSimulationTask]

/-- C4 (code_bug): at load multiplier 1/2 — any synthetic-mode off-peak step
sets such a multiplier — get_grid_state reports total_load_kw = 25 while the
sum of the kw fields of the very load entries of the same snapshot is 50:
lines 290-292 of opendss_service.py multiply the already-scaled per-entry sum
by the multiplier a second time. The state-read path (read_current_state) and
the real-data stepping path compute the plain sum and are consistent. -/
theorem grid_state_total_load_double_scaled :
    gridStateTotalLoad oneLoad (1/2) = 25 ∧
    ((getAllLoads oneLoad (1/2)).map LoadEntry.kw).sum = 50 ∧
    gridStateTotalLoad oneLoad (1/2) ≠
      ((getAllLoads oneLoad (1/2)).map LoadEntry.kw).sum ∧
    readStateTotalLoad oneLoad (1/2) =
      ((getAllLoads oneLoad (1/2)).map LoadEntry.kw).sum := by
  refine ⟨by norm_num [gridStateTotalLoad, getAllLoads, oneLoad],
    by norm_num [getAllLoads, oneLoad],
    by norm_num [gridStateTotalLoad, getAllLoads, oneLoad],
    rfl⟩

/-- C8 (corrected) counterexample: an engine-produced snapshot fails to reach
the observer (its send fails), yet the observer is not removed from the
subscriber set — the per-connection callback swallows the failure, so
_broadcast_state sees no exception — and the very same set is iterated again
by the next broadcast. -/
theorem failed_snapshot_delivery_keeps_observer :
    failingObserver.sendOk = false ∧
    broadcastState [failingObserver] = [failingObserver] ∧
    failingObserver ∈ broadcastState (broadcastState [failingObserver]) :=
  ⟨rfl, rfl, by decide⟩

/-- C8 (corrected), amended: a delivery failure during the hub's own
broadcast removes that connection from the active set, with the removal
applied after the iteration completes — every connection in the starting
snapshot still gets its delivery attempt — and, membership being the sole
authority for delivery, the removed connection receives no subsequent hub
broadcast; a failure delivering an engine-produced snapshot, by contrast, is
swallowed inside the per-connection callback, so the engine removes no
subscriber and the failing observer keeps receiving broadcast attempts. -/
theorem hub_removes_after_iteration_engine_swallows (conns : List Conn)
    (c : Conn) (hc : c.sendOk = false) :
    c ∉ hubBroadcast conns ∧
    (c ∈ conns → c.id ∈ hubBroadcastAttempts conns) ∧
    c ∉ hubBroadcast (hubBroadcast conns) ∧
    broadcastState conns = conns := by
  refine ⟨?_, ?_, ?_, ?_⟩
  · simp [hubBroadcast, List.mem_filter, hc]
  · intro h
    exact List.mem_map_of_mem Conn.id h
  · simp [hubBroadcast, List.mem_filter, hc]
  · simp [broadcastState, broadcastStateGeneral, wsCallbackRaises]

/-- Witness for the amended C8: two connections, the first failing. -/
theorem hub_removes_after_iteration_engine_swallows_witness :
    failingObserver ∉ hubBroadcast [failingObserver, { id := 2, sendOk := true }] ∧
    (failingObserver ∈ [failingObserver, { id := 2, sendOk := true }] →
      failingObserver.id ∈
        hubBroadcastAttempts [failingObserver, { id := 2, sendOk := true }]) ∧
    failingObserver ∉
      hubBroadcast (hubBroadcast [failingObserver, { id := 2, sendOk := true }]) ∧
    broadcastState [failingObserver, { id := 2, sendOk := true }] =
      [failingObserver, { id := 2, sendOk := true }] :=
  hub_removes_after_iteration_engine_swallows
    [failingObserver, { id := 2, sendOk := true }] failingObserver rfl

/-- C9 (confirmed): a client message whose action (actions are lowercased on
receipt) is not one of the known set is answered with the error event naming
the action, and a malformed message is answered with the parse-error event;
in both cases the connection remains registered: the receive loop continues
and deregistration happens only on disconnect. -/
theorem unknown_action_and_malformed_never_close (a : String)
    (h : strLower a ∉ knownActions) :
    endpointStep (.action a) =
      (.errorReply ("Unknown action: " ++ strLower a), true) ∧
    endpointStep .malformed = (.errorReply "Invalid JSON message", true) := by
  refine ⟨?_, rfl⟩
  simp only [knownActions, List.mem_cons, List.not_mem_nil, or_false,
    not_or] at h
  obtain ⟨h1, h2, h3, h4, h5, h6, h7, h8, h9, h10⟩ := h
  simp [endpointStep, handle_client_message, h1, h2, h3, h4, h5, h6, h7, h8,
    h9, h10]

/-- Witness for C9 at an unknown action. -/
theorem unknown_action_and_malformed_never_close_witness :
    endpointStep (.action "frobnicate") =
      (.errorReply ("Unknown action: " ++ strLower "frobnicate"), true) ∧
    endpointStep .malformed = (.errorReply "Invalid JSON message", true) :=
  unknown_action_and_malformed_never_close "frobnicate" (by decide)

/-- Once a task record carries the cancelled status, the remaining loop
iterations append nothing: the background execution observes the flag at the
top of the next iteration and stops (then line 343 overwrites the status). -/
theorem runTaskLoop_cancelled (outcomes : Int → DayOutcome)
    (cancelDuring : Int → Bool) (dates : List Int) (dayNum : Nat)
    (t : SimulationTask) :
    runTaskLoop outcomes cancelDuring dates dayNum
        { t with status := "cancelled" } =
      { t with status := "completed" } := by
  cases dates with
  | nil => rw [runTaskLoop]
  | cons date rest => rw [runTaskLoop, if_pos rfl]

/-- C10 (confirmed): a successful cancel of the running batch task clears the
busy marker at once — cancel_task sets running_task_id to None itself — so
is_busy is False immediately and a new batch start request is accepted, even
though the cancelled task's background execution observes the flag only at
the next day boundary (runTaskLoop_cancelled: it then stops without
appending). -/
theorem cancel_clears_busy_immediately (p : PipelineState) (tid newId : String)
    (d : Int) (t : SimulationTask)
    (h1 : lookupTask p.tasks tid = some t) (h2 : t.status = "running") :
    (cancel_task p tid).1 = true ∧
    is_busy (cancel_task p tid).2 = false ∧
    start_simulation (cancel_task p tid).2 newId d none =
      .ok (newId,
        { tasks := (newId, mkSimulationTask newId d none) ::
            (cancel_task p tid).2.tasks,
          runningTaskId := some newId }) := by
  have hc : cancel_task p tid =
      (true, { tasks := updateTask p.tasks tid { t with status := "cancelled" },
               runningTaskId := none }) := by
    simp [cancel_task, h1, h2]
  rw [hc]
  exact ⟨rfl, rfl, rfl⟩

/-- Witness for C10 on the busy pipeline fixture. -/
theorem cancel_clears_busy_immediately_witness :
    (cancel_task runningPipeline "abc12345").1 = true ∧
    is_busy (cancel_task runningPipeline "abc12345").2 = false ∧
    start_simulation (cancel_task runningPipeline "abc12345").2 "tid00002" 200
        none =
      .ok ("tid00002",
        { tasks := ("tid00002", mkSimulationTask "tid00002" 200 none) ::
            (cancel_task runningPipeline "abc12345").2.tasks,
          runningTaskId := some "tid00002" }) :=
  cancel_clears_busy_immediately runningPipeline "abc12345" "tid00002" 200
    runningBatchTask rfl rfl

end SmartGrid
